import Mathlib

/-!
# Shallow embedding of the Prayer app's interesting slice

This file embeds, in Lean 4, the parts of the repository that the
specification talks about:

* the per-slot request-tracking state machine used by `handleSearchSegment`
  / `handleCancelSearchSegment` in the App component (stale-response
  suppression via `Date.now()` tokens stored in `activeRequestsRef`);
* the pure prompt assemblers `generatePrayerSegment`,
  `generateRepresentativePrayer` and `generateFuneralPrayer`
  (both source variants where the claims reference both);
* the WAV container encoder `createWavBlob`;
* the response/fallback handling of the generation functions;
* the submit-time validation of `handleGenerateRep` / `handleGenerateFun`;
* the voice selection of `generateSpeech`.

Strings are Lean `String`s (the TS template literals are reproduced
byte-for-byte, including indentation and trailing spaces); machine
integers written through a `DataView` are `Nat` with explicit `% 2^32`
truncation; JS `string | undefined` values are `Option String`, with
`undefined` rendering as `"undefined"` inside a template literal;
fallible network calls are `Except Unit` values supplied as inputs.
-/

namespace Prayer

/-- `types.ts`: an attachment `{ data, mimeType, fileName? }`. -/
structure PrayerAttachment where
  data : String
  mimeType : String
  fileName : Option String
deriving DecidableEq, Repr

/-- `types.ts`: the `'male' | 'female'` union used for `voiceGender` and the
`gender` parameter of `generateSpeech`. -/
inductive Gender where
  | male
  | female
deriving DecidableEq, Repr

/-- `types.ts` (variant with per-section include flags): the
`RepresentativeSettings` record.  The second service variant's settings type
has the same fields minus the six `include*` flags and `voiceGender`; the
prompt builder of that variant reads only the shared fields, so one structure
serves both. -/
structure RepresentativeSettings where
  churchName : String
  pastorName : String
  pastorTitle : String
  serviceType : String
  otherServiceType : String
  churchSeason : String
  otherChurchSeason : String
  prayerTone : String
  prayerDuration : String
  graceAndSalvation : String
  includeGraceAndSalvation : Bool
  confessionAndForgiveness : String
  includeConfessionAndForgiveness : Bool
  nationWellbeing : String
  includeNationWellbeing : Bool
  churchNeeds : String
  includeChurchNeeds : Bool
  specialGraceAndHealing : String
  includeSpecialGraceAndHealing : Bool
  preacherFilling : String
  includePreacherFilling : Bool
  additionalRequests : String
  voiceGender : Gender
  attachments : Option (List PrayerAttachment)
deriving DecidableEq, Repr

/-- `types.ts`: the `FuneralSettings` record. -/
structure FuneralSettings where
  deceasedName : String
  deceasedTitle : String
  funeralType : String
  familyComfort : String
  hopeOfResurrection : String
  additionalRequests : String
  voiceGender : Gender
  attachments : Option (List PrayerAttachment)
deriving DecidableEq, Repr

/-- `types.ts`: `GroundingSource { title?, uri? }`. -/
structure GroundingSource where
  title : Option String
  uri : Option String
deriving DecidableEq, Repr

/-!
## Request tracker (one slot)

`App` (third source document) keeps, for each accordion slot `index`:

* `activeRequestsRef.current[index] : number` — the token of the most
  recently begun request for the slot (`Date.now()` at begin time; the
  sentinel `0` after `handleCancelSearchSegment`);
* `searchingStates[index] : boolean` — the visible busy indicator;
* `repSettings[keys[index]] : string` — the text field the response is
  written into.

Slots are fully independent (each event touches exactly one index), so the
model carries the state of a single slot.  `activeRequest` is an
`Option Nat`: `none` is the initial JS `undefined`, `some t` a stored token.
-/

/-- The per-slot mutable state read and written by `handleSearchSegment` and
`handleCancelSearchSegment`. -/
structure SlotState where
  activeRequest : Option Nat
  searching : Bool
  fieldValue : String
  alerts : Nat
deriving DecidableEq, Repr

/-- `handleSearchSegment`, synchronous prefix (after validation passes):
`const requestId = Date.now(); activeRequestsRef.current[index] = requestId;
setSearchingStates(... true ...)`.  The minted token `t` is the `Date.now()`
value. -/
def beginSearch (t : Nat) (s : SlotState) : SlotState :=
  { s with activeRequest := some t, searching := true }

/-- `handleSearchSegment`, resumption after `generatePrayerSegment` resolves
with `newPhrase`: `if (activeRequestsRef.current[index] !== requestId) return;`
then `setRepSettings(... newPhrase ...)`, and in `finally` the busy flag is
cleared only under the same `=== requestId` guard.  No other event can run
between the guard and the `finally` block (single-threaded event loop), so
the two guarded steps collapse into one conditional update. -/
def deliverSuccess (t : Nat) (newPhrase : String) (s : SlotState) : SlotState :=
  if s.activeRequest = some t then
    { s with fieldValue := newPhrase, searching := false }
  else
    s

/-- `handleSearchSegment`, resumption after the call rejects: the `catch`
alerts only if the token is still current, and `finally` clears the busy flag
only if the token is still current. -/
def deliverError (t : Nat) (s : SlotState) : SlotState :=
  if s.activeRequest = some t then
    { s with alerts := s.alerts + 1, searching := false }
  else
    s

/-- `handleCancelSearchSegment`: `activeRequestsRef.current[index] = 0;
setSearchingStates(... false ...)`. -/
def cancelSearch (s : SlotState) : SlotState :=
  { s with activeRequest := some 0, searching := false }

/-!
## WAV encoder

`createWavBlob` (third source document) builds a 44-byte header with a
`DataView` and concatenates the raw PCM bytes after it.  The blob is modelled
as its byte list; `DataView.setUint16/setUint32` truncate the stored value to
16/32 bits, written here as explicit `%` operations.
-/

/-- A byte store: the `ArrayBuffer(44)` underlying the `DataView`, as a map
from byte address to byte value (zero-initialised, like a fresh buffer). -/
def writeByte (st : Nat → Nat) (i v : Nat) : Nat → Nat :=
  fun j => if j = i then v else st j

/-- `DataView.setUint16(off, v, true)` (little endian): the stored value is
truncated to 16 bits and written low byte first. -/
def setUint16LE (st : Nat → Nat) (off v : Nat) : Nat → Nat :=
  writeByte (writeByte st off ((v % 65536) % 256))
    (off + 1) ((v % 65536) / 256 % 256)

/-- `DataView.setUint32(off, v, true)` (little endian): the stored value is
truncated to 32 bits and written low byte first. -/
def setUint32LE (st : Nat → Nat) (off v : Nat) : Nat → Nat :=
  writeByte (writeByte (writeByte (writeByte st
    off ((v % 4294967296) % 256))
    (off + 1) ((v % 4294967296) / 256 % 256))
    (off + 2) ((v % 4294967296) / 65536 % 256))
    (off + 3) ((v % 4294967296) / 16777216 % 256)

/-- `DataView.setUint32(off, v, false)` (big endian): the stored value is
truncated to 32 bits and written high byte first. -/
def setUint32BE (st : Nat → Nat) (off v : Nat) : Nat → Nat :=
  writeByte (writeByte (writeByte (writeByte st
    off ((v % 4294967296) / 16777216 % 256))
    (off + 1) ((v % 4294967296) / 65536 % 256))
    (off + 2) ((v % 4294967296) / 256 % 256))
    (off + 3) ((v % 4294967296) % 256)

/-- `createWavBlob(pcmData, sampleRate)`: the 44-byte RIFF/WAVE header written
field by field through a `DataView`, followed by the PCM payload.  The
`view.set*` calls appear in the exact order of the source; the blob is the 44
header bytes followed by the payload bytes. -/
def createWavBlob (pcmData : List Nat) (sampleRate : Nat) : List Nat :=
  let st : Nat → Nat := fun _ => 0
  let st := setUint32BE st 0 0x52494646
  let st := setUint32LE st 4 (36 + pcmData.length)
  let st := setUint32BE st 8 0x57415645
  let st := setUint32BE st 12 0x666d7420
  let st := setUint32LE st 16 16
  let st := setUint16LE st 20 1
  let st := setUint16LE st 22 1
  let st := setUint32LE st 24 sampleRate
  let st := setUint32LE st 28 (sampleRate * 2)
  let st := setUint16LE st 32 2
  let st := setUint16LE st 34 16
  let st := setUint32BE st 36 0x64617461
  let st := setUint32LE st 40 pcmData.length
  (List.range 44).map st ++ pcmData

/-- Read `n` bytes of a blob starting at byte offset `off`. -/
def sliceAt (l : List Nat) (off n : Nat) : List Nat :=
  (l.drop off).take n

/-- Read a little-endian 16-bit field at byte offset `off`. -/
def readLE16 (l : List Nat) (off : Nat) : Nat :=
  l.getD off 0 + 256 * l.getD (off + 1) 0

/-- Read a little-endian 32-bit field at byte offset `off`. -/
def readLE32 (l : List Nat) (off : Nat) : Nat :=
  l.getD off 0 + 256 * l.getD (off + 1) 0 + 65536 * l.getD (off + 2) 0 +
    16777216 * l.getD (off + 3) 0

end Prayer

namespace Prayer

/-!
## String scanning helpers

`String.prototype.includes` (used by `generatePrayerSegment` to pick the
segment-specific prompt) and the substring talk of the specification are
modelled by a character-list scanner.
-/

/-- `pat` occurs at the very start of `l`. -/
def charsLeads : List Char → List Char → Bool
  | _, [] => true
  | [], _ :: _ => false
  | c :: cs, p :: ps => c == p && charsLeads cs ps

/-- `pat` occurs somewhere in `l`. -/
def charsHasPat : List Char → List Char → Bool
  | [], pat => pat.isEmpty
  | c :: cs, pat => charsLeads (c :: cs) pat || charsHasPat cs pat

/-- JS `s.includes(pat)`. -/
def jsIncludes (s pat : String) : Bool :=
  charsHasPat s.data pat.data

/-- The string contains the character `타` (the second syllable of the
sentinel `기타`; it occurs nowhere in any static template text of the
source, only inside the sentinel itself). -/
def hasTa (s : String) : Bool :=
  decide ('타' ∈ s.data)

theorem charsLeads_iff (l p : List Char) :
    charsLeads l p = true ↔ ∃ t, l = p ++ t := by
  induction p generalizing l with
  | nil => simp [charsLeads]
  | cons q qs ih =>
    cases l with
    | nil => simp [charsLeads]
    | cons c cs =>
      simp only [charsLeads, Bool.and_eq_true, beq_iff_eq, ih, List.cons_append,
        List.cons.injEq]
      constructor
      · rintro ⟨rfl, t, rfl⟩
        exact ⟨t, rfl, rfl⟩
      · rintro ⟨t, rfl, rfl⟩
        exact ⟨rfl, t, rfl⟩

theorem charsHasPat_iff (l p : List Char) :
    charsHasPat l p = true ↔ ∃ u t, l = u ++ p ++ t := by
  induction l with
  | nil =>
    simp only [charsHasPat, List.isEmpty_iff]
    constructor
    · rintro rfl
      exact ⟨[], [], rfl⟩
    · rintro ⟨u, t, h⟩
      exact (List.append_eq_nil.mp (List.append_eq_nil.mp h.symm).1).2
  | cons c cs ih =>
    simp only [charsHasPat, Bool.or_eq_true, charsLeads_iff, ih]
    constructor
    · rintro (⟨t, ht⟩ | ⟨u, t, rfl⟩)
      · exact ⟨[], t, by simpa using ht⟩
      · exact ⟨c :: u, t, rfl⟩
    · rintro ⟨u, t, h⟩
      cases u with
      | nil =>
        exact Or.inl ⟨t, by simpa using h⟩
      | cons x xs =>
        simp only [List.cons_append, List.cons.injEq] at h
        exact Or.inr ⟨xs, t, h.2⟩

theorem jsIncludes_append_left (a b p : String) (h : jsIncludes a p = true) :
    jsIncludes (a ++ b) p = true := by
  rcases (charsHasPat_iff _ _).mp h with ⟨u, t, hu⟩
  refine (charsHasPat_iff _ _).mpr ⟨u, t ++ b.data, ?_⟩
  simp [String.data_append, hu]

theorem jsIncludes_append_right (a b p : String) (h : jsIncludes b p = true) :
    jsIncludes (a ++ b) p = true := by
  rcases (charsHasPat_iff _ _).mp h with ⟨u, t, hu⟩
  refine (charsHasPat_iff _ _).mpr ⟨a.data ++ u, t, ?_⟩
  simp [String.data_append, hu]

theorem jsIncludes_refl (p : String) : jsIncludes p p = true :=
  (charsHasPat_iff _ _).mpr ⟨[], [], by simp⟩

theorem hasTa_append (a b : String) :
    hasTa (a ++ b) = (hasTa a || hasTa b) := by
  simp only [hasTa, String.data_append, List.mem_append]
  by_cases ha : '타' ∈ a.data <;> by_cases hb : '타' ∈ b.data <;> simp [ha, hb]

/-- A string without `타` cannot contain the sentinel `기타`. -/
theorem not_includes_sentinel_of_no_ta (s : String) (h : hasTa s = false) :
    jsIncludes s "기타" = false := by
  by_contra hc
  rcases (charsHasPat_iff _ _).mp (Bool.of_not_eq_false hc) with ⟨u, t, hu⟩
  have hmem : '타' ∈ s.data := by
    rw [hu]
    exact List.mem_append.mpr (Or.inl (List.mem_append.mpr (Or.inr (by decide))))
  simp only [hasTa, decide_eq_false_iff_not] at h
  exact h hmem

end Prayer

namespace Prayer

/-!
## Prompt assemblers

The prompt-construction parts of `generatePrayerSegment`,
`generateRepresentativePrayer` and `generateFuneralPrayer`.  Template
literals are reproduced byte-for-byte (including indentation and trailing
spaces); each `${...}` interpolation becomes a `++`.
-/

/-- JS template-literal interpolation of a `string | undefined` value:
`undefined` renders as the text `undefined`. -/
def strOfOptUndef : Option String → String
  | some s => s
  | none => "undefined"

/-- The `context` parameter of `generatePrayerSegment`:
`{ churchName: string; churchSeason: string; otherSeason?: string }`. -/
structure SegmentContext where
  churchName : String
  churchSeason : String
  otherSeason : Option String
deriving DecidableEq, Repr

/-- doc 1 `generatePrayerSegment`:
`const season = context.churchSeason === '기타' ? context.otherSeason : context.churchSeason`. -/
def segSeason (context : SegmentContext) : String :=
  if context.churchSeason = "기타" then strOfOptUndef context.otherSeason
  else context.churchSeason

/-- doc 1 `generateRepresentativePrayer`: the `toneInstruction` conditional. -/
def toneInstructionV1 (prayerTone : String) : String :=
  if prayerTone = "전통적" then
    "정통 한국 교회의 장중하고 격식 있는 문체(~하옵소서, ~하였사오니 등)를 사용하며, 깊은 영성과 경외심이 느껴지는 어휘를 선택하세요."
  else
    "현대적이고 따뜻하며 진솔한 어조(~해주세요, ~합니다 등)를 사용하되, 예배의 거룩함과 경건함이 유지되는 고품격 문체로 작성하세요."

/-- doc 2 `generateRepresentativePrayer`: the `toneInstruction` conditional. -/
def toneInstructionV2 (prayerTone : String) : String :=
  if prayerTone = "전통적" then
    "장중하고 격식 있는 전통적 문체(~하옵소서)를 사용하십시오."
  else
    "현대적이고 진솔하며 따뜻한 문체(~합니다)를 사용하십시오."

/-- `const finalServiceType = settings.serviceType === '기타' ?
settings.otherServiceType : settings.serviceType` (both variants). -/
def finalServiceTypeOf (settings : RepresentativeSettings) : String :=
  if settings.serviceType = "기타" then settings.otherServiceType
  else settings.serviceType

/-- `const finalChurchSeason = settings.churchSeason === '기타' ?
settings.otherChurchSeason : settings.churchSeason` (both variants). -/
def finalChurchSeasonOf (settings : RepresentativeSettings) : String :=
  if settings.churchSeason = "기타" then settings.otherChurchSeason
  else settings.churchSeason

/-- doc 1 `generateRepresentativePrayer`: the `instructionParts`
accumulator — one line per section whose include flag is set, appended in
the source's fixed order. -/
def instructionParts (settings : RepresentativeSettings) : String :=
  (if settings.includeGraceAndSalvation then
    "- 경배와 찬양: " ++ settings.graceAndSalvation ++ "\n" else "") ++
  (if settings.includeConfessionAndForgiveness then
    "- 참회와 고백: " ++ settings.confessionAndForgiveness ++ "\n" else "") ++
  (if settings.includeNationWellbeing then
    "- 나라와 민족: " ++ settings.nationWellbeing ++ "\n" else "") ++
  (if settings.includeChurchNeeds then
    "- 교회와 선교: " ++ settings.churchNeeds ++ "\n" else "") ++
  (if settings.includeSpecialGraceAndHealing then
    "- 고난과 치유: " ++ settings.specialGraceAndHealing ++ "\n" else "") ++
  (if settings.includePreacherFilling then
    "- 설교와 말씀: " ++ settings.preacherFilling ++ "\n" else "")

end Prayer

namespace Prayer

/-- doc 1 `generatePrayerSegment`: the `segmentName.includes("찬양")` branch of `segmentPrompt`. -/
def segPromptPraise (season : String) (context : SegmentContext) : String :=
  "\n      1. 최근 한국 교계에서 가장 은혜롭다고 평가받는 '" ++
    season ++
    "' 절기의 찬양 기도문을 검색하십시오.\n      2. '" ++
    context.churchName ++
    "'의 이름이 가진 영적 의미나 해당 지역/교단에서 주로 사용하는 깊이 있는 찬양 표현을 분석하십시오.\n      3. 성부, 성자, 성령 삼위일체 하나님에 대한 감사와 십자가의 보혈, 성령의 임재를 담은 '최고의 2~3문장'을 도출하십시오.\n    "

/-- doc 1 `generatePrayerSegment`: the `"참회"` branch. -/
def segPromptConfession  : String :=
  "\n      1. 최근 한국 교계에서 가장 진실하고 통회하는 마음이 잘 표현된 '참회와 고백' 기도문을 검색하십시오.\n      2. 성도들이 일상에서 겪는 연약함과 죄의 고백, 하나님의 자비를 구하는 깊이 있는 표현을 분석하십시오.\n      3. 그리스도의 보혈로 씻음 받는 확신과 새로운 삶을 결단하는 '최고의 2~3문장'을 도출하십시오.\n    "

/-- doc 1 `generatePrayerSegment`: the `"나라"` branch. -/
def segPromptNation  : String :=
  "\n      1. 현재 대한민국이 처한 상황(경제, 사회, 안보 등)을 반영한 가장 적절하고 간절한 나라 사랑 기도문을 검색하십시오.\n      2. 위정자들에게 필요한 성경적 지혜와 민족의 화합, 복음 통일을 향한 소망이 담긴 문구를 분석하십시오.\n      3. 국가의 안위와 평화, 정의로운 사회를 간구하는 '최고의 2~3문장'을 도출하십시오.\n    "

/-- doc 1 `generatePrayerSegment`: the `"교회"` branch. -/
def segPromptChurch (context : SegmentContext) : String :=
  "\n      1. 한국 교회 부흥과 연합, 그리고 '" ++
    context.churchName ++
    "'와 같은 지역 교회의 사명을 다루는 현대적인 기도문을 검색하십시오.\n      2. 교회의 영적 성장, 다음 세대의 부흥, 지역 사회를 향한 사랑의 실천을 강조하는 표현을 분석하십시오.\n      3. 교회가 빛과 소금의 역할을 감당하도록 간구하는 '최고의 2~3문장'을 도출하십시오.\n    "

/-- doc 1 `generatePrayerSegment`: the `"고난" || "치유"` branch. -/
def segPromptHealing  : String :=
  "\n      1. 질병, 경제적 어려움, 심적 고통 중에 있는 성도들을 위로하는 가장 감동적인 치유 기도문을 검색하십시오.\n      2. 여호와 라파의 하나님, 고난 중에 함께하시는 주님의 임재와 특별한 은혜를 구하는 표현을 분석하십시오.\n      3. 아픈 이들의 육신과 영혼을 강건하게 하시는 하나님의 만져주심을 간구하는 '최고의 2~3문장'을 도출하십시오.\n    "

/-- doc 1 `generatePrayerSegment`: the `"설교자"` branch. -/
def segPromptPreacher  : String :=
  "\n      1. 말씀을 전하는 목회자에게 임하는 성령의 강력한 기름부으심을 간구하는 권능 있는 기도문을 검색하십시오.\n      2. 선포되는 말씀이 성도들의 삶을 변화시키고 영적 갈급함을 채우는 생명의 양식이 되게 하는 표현을 분석하십시오.\n      3. 설교자가 성령 충만하여 담대히 하나님의 진리를 선포하도록 돕는 '최고의 2~3문장'을 도출하십시오.\n    "

/-- doc 1 `generatePrayerSegment`: the outer prompt template wrapping `segmentPrompt`. -/
def segPromptOuter (segmentName : String) (context : SegmentContext) (segmentPrompt : String) : String :=
  "\n    당신은 전 세계 기독교 문학 및 신학적 깊이가 가장 뛰어난 기도문 작성 전문가입니다.\n    현재 '" ++
    context.churchName ++
    "'에서 드려지는 예배의 '" ++
    segmentName ++
    "' 파트를 위해, Google Search를 통해 다음 작업을 수행하세요:\n    \n    " ++
    segmentPrompt ++
    "\n    \n    [작성 규칙]\n    - 반드시 Google Search 결과를 바탕으로 기존에 없던 신선하고 깊은 영성의 문구를 작성하세요.\n    - 문체는 격식 있고 장중한 '전통적 기도체'(~하옵소서, ~합니다)를 유지하세요.\n    - 출력은 오직 기도 문구만 하고, 서론이나 결론은 생략하세요.\n  "

/-- doc 1 `generateRepresentativePrayer`: the full prompt template literal. -/
def buildRepPromptV1 (settings : RepresentativeSettings) : String :=
  "\n    당신은 수십 년간 수많은 성도들에게 영적 감동을 전해온 세계 최고의 기도문 작성 전문가입니다. \n    Google Search와 제공된 멀티모달 정보를 활용하여 '최고의 대표기도문'을 작성해주세요.\n\n    [핵심 임무]\n    1. Google Search를 통해 현재 한국 교계의 '" ++
    (finalChurchSeasonOf settings) ++
    "' 절기 및 '" ++
    (finalServiceTypeOf settings) ++
    "'에 가장 적절한 성경적 표현과 기도 흐름을 분석하십시오.\n    2. [멀티모달 정밀 분석]: 제공된 첨부 파일(이미지, PDF, 문서 등)의 내용을 세밀하게 분석하십시오. 텍스트 정보나 현장의 분위기, 강조된 기도 제목 등을 모두 종합하여 기도문에 영적으로 승화시켜 반영하십시오.\n    3. 각 섹션에 가장 잘 어울리는 성경 구절을 찾아 기도문에 자연스럽게 녹여내십시오.\n\n    [입력 정보]\n    - 교회 이름: " ++
    settings.churchName ++
    "\n    - 설교자: " ++
    settings.pastorName ++
    " " ++
    settings.pastorTitle ++
    "\n    - 예배 종류: " ++
    (finalServiceTypeOf settings) ++
    "\n    - 교회 절기: " ++
    (finalChurchSeasonOf settings) ++
    "\n    - 기도문 톤: " ++
    settings.prayerTone ++
    " (" ++
    (toneInstructionV1 settings.prayerTone) ++
    ")\n    - 예상 기도 시간: " ++
    settings.prayerDuration ++
    "\n\n    [기도문 구성 지침]\n    " ++
    (instructionParts settings) ++
    "\n    - 추가 요청 사항: " ++
    settings.additionalRequests ++
    "\n\n    마지막은 \"우리 주 예수 그리스도의 이름으로 간절히 기도드립니다. 아멘.\"으로 마무리하십시오.\n  "

/-- doc 1 `generateFuneralPrayer`: the full prompt template literal. -/
def buildFunPromptV1 (settings : FuneralSettings) : String :=
  "\n    당신은 슬픔에 잠긴 이들을 위로하고 천국의 소망을 전하는 영적 위로자입니다.\n    제공된 모든 정보를 바탕으로 '최고의 장례 예배 기도문'을 작성해주세요.\n\n    [핵심 임무]\n    1. Google Search를 통해 '" ++
    settings.funeralType ++
    "' 예배에 가장 적합한 위로와 소망의 성경 구절 및 정중한 기독교적 추모 용어를 검색하십시오.\n    2. [멀티모달 정밀 분석]: 제공된 첨부 파일을 분석하여 고인의 생전 모습, 유가족과의 추억, 믿음의 흔적 등을 기도문에 따뜻하게 담아내어 위로하십시오.\n    3. 부활의 산 소망과 영원한 안식을 간결하면서도 깊이 있게 표현하십시오.\n\n    [세부 정보]\n    - 고인: " ++
    settings.deceasedName ++
    " " ++
    settings.deceasedTitle ++
    "\n    - 예배 구분: " ++
    settings.funeralType ++
    " 예배\n    - 유족 위로: " ++
    settings.familyComfort ++
    "\n    - 부활 소망: " ++
    settings.hopeOfResurrection ++
    "\n    - 추가 사항: " ++
    settings.additionalRequests ++
    "\n\n    마지막은 \"부활이요 생명이신 예수 그리스도의 이름으로 기도드립니다. 아멘.\"으로 끝내주세요.\n  "

/-- doc 2 `generateRepresentativePrayer` (second variant): the full prompt template literal; note it contains no closing-formula instruction. -/
def buildRepPromptV2 (settings : RepresentativeSettings) : String :=
  "\n    당신은 수만 명의 영혼을 울리는 세계 최고의 기도문 작성가이자 깊은 신학적 소양을 가진 영적 지도자입니다. \n    제공된 정보와 Google Search를 결합하여 '" ++
    settings.churchName ++
    "'를 위한 최고의 대표기도문을 작성하십시오.\n    \n    [핵심 주제 및 원칙]\n    - 반드시 '하나님의 무한하신 은혜'와 '예수 그리스도의 십자가의 대속적 사랑'을 기도문의 모든 문장 저변에 흐르게 하십시오. \n    - 우리가 보좌 앞에 담대히 나아갈 수 있는 유일한 근거가 '예수 그리스도의 보혈'임을 명시적으로 고백하십시오.\n\n    [설정 정보]\n    - 설교자: " ++
    settings.pastorName ++
    " " ++
    settings.pastorTitle ++
    "\n    - 예배: " ++
    (finalServiceTypeOf settings) ++
    " (" ++
    (finalChurchSeasonOf settings) ++
    ")\n    - 톤: " ++
    settings.prayerTone ++
    " (" ++
    (toneInstructionV2 settings.prayerTone) ++
    ")\n    - 목표 시간: " ++
    settings.prayerDuration ++
    "\n\n    [기도문 구성 지침]\n    1. 경배와 찬양: " ++
    settings.graceAndSalvation ++
    " (성부 하나님의 창조와 섭리, 성자 예수의 십자가 사랑 찬양)\n    2. 참회와 회개: " ++
    settings.confessionAndForgiveness ++
    " (보혈로 씻어주시는 은혜에 대한 확신)\n    3. 나라와 민족: " ++
    settings.nationWellbeing ++
    "\n    4. 교회와 공동체: " ++
    settings.churchNeeds ++
    "\n    5. 성도의 환우와 치유: " ++
    settings.specialGraceAndHealing ++
    "\n    6. 말씀과 설교자: " ++
    settings.preacherFilling ++
    "\n    7. 추가 간구: " ++
    settings.additionalRequests ++
    "\n\n    Google Search를 통해 각 섹션에 가장 적합한 최신 성경 구절과 교계의 은혜로운 표현을 포함시키십시오. \n  "


end Prayer

namespace Prayer

/-- doc 1 `generatePrayerSegment`: the `if/else if` chain selecting
`segmentPrompt` from `segmentName` via `String.prototype.includes`. -/
def segmentPromptFor (segmentName : String) (context : SegmentContext) : String :=
  if jsIncludes segmentName "찬양" then segPromptPraise (segSeason context) context
  else if jsIncludes segmentName "참회" then segPromptConfession
  else if jsIncludes segmentName "나라" then segPromptNation
  else if jsIncludes segmentName "교회" then segPromptChurch context
  else if jsIncludes segmentName "고난" || jsIncludes segmentName "치유" then segPromptHealing
  else if jsIncludes segmentName "설교자" then segPromptPreacher
  else ""

/-- doc 1 `generatePrayerSegment`: the full prompt sent to the model. -/
def buildSegmentPrompt (segmentName : String) (context : SegmentContext) : String :=
  segPromptOuter segmentName context (segmentPromptFor segmentName context)

/-!
## The six representative sections (doc 1 variant)

An index type for the six per-section include flags / instruction lines of
`instructionParts`, in the source's fixed order.
-/

/-- The six sections of `instructionParts`, in source order. -/
inductive RepSection where
  | grace
  | confession
  | nation
  | church
  | healing
  | preacher
deriving DecidableEq, Repr

/-- Source order of the six `if` statements building `instructionParts`. -/
def sectionOrder : List RepSection :=
  [.grace, .confession, .nation, .church, .healing, .preacher]

/-- The include flag the section's `if` reads. -/
def secFlag (settings : RepresentativeSettings) : RepSection → Bool
  | .grace => settings.includeGraceAndSalvation
  | .confession => settings.includeConfessionAndForgiveness
  | .nation => settings.includeNationWellbeing
  | .church => settings.includeChurchNeeds
  | .healing => settings.includeSpecialGraceAndHealing
  | .preacher => settings.includePreacherFilling

/-- The instruction line the section's `if` appends. -/
def secLine (settings : RepresentativeSettings) : RepSection → String
  | .grace => "- 경배와 찬양: " ++ settings.graceAndSalvation ++ "\n"
  | .confession => "- 참회와 고백: " ++ settings.confessionAndForgiveness ++ "\n"
  | .nation => "- 나라와 민족: " ++ settings.nationWellbeing ++ "\n"
  | .church => "- 교회와 선교: " ++ settings.churchNeeds ++ "\n"
  | .healing => "- 고난과 치유: " ++ settings.specialGraceAndHealing ++ "\n"
  | .preacher => "- 설교와 말씀: " ++ settings.preacherFilling ++ "\n"

/-- Overwrite one section's include flag (the accordion checkbox). -/
def setIncludeFlag (settings : RepresentativeSettings) :
    RepSection → Bool → RepresentativeSettings
  | .grace, b => { settings with includeGraceAndSalvation := b }
  | .confession, b => { settings with includeConfessionAndForgiveness := b }
  | .nation, b => { settings with includeNationWellbeing := b }
  | .church, b => { settings with includeChurchNeeds := b }
  | .healing, b => { settings with includeSpecialGraceAndHealing := b }
  | .preacher, b => { settings with includePreacherFilling := b }

/-!
## Request payload parts
-/

/-- One element of the `parts` array sent to the generation capability:
either the prompt text or an `inlineData` attachment. -/
inductive GenPart where
  | text (t : String)
  | inlineData (data mimeType : String)
deriving DecidableEq, Repr

/-- `const parts = [{ text: prompt }]; if (settings.attachments &&
settings.attachments.length > 0) settings.attachments.forEach(att =>
parts.push({ inlineData: { data: att.data, mimeType: att.mimeType } }))`
(identical in both generation functions of both variants). -/
def buildParts (prompt : String) (attachments : Option (List PrayerAttachment)) :
    List GenPart :=
  GenPart.text prompt ::
    (match attachments with
     | some atts =>
         if atts.length > 0 then
           atts.map (fun att => GenPart.inlineData att.data att.mimeType)
         else []
     | none => [])

/-- doc 1 `generateRepresentativePrayer`: prompt plus attachment parts —
the full request payload, a pure function of the settings record. -/
def buildRepPartsV1 (settings : RepresentativeSettings) : List GenPart :=
  buildParts (buildRepPromptV1 settings) settings.attachments

/-!
## Response handling and fallbacks
-/

/-- doc 1 `generatePrayerSegment`: the empty-text fallback of
`response.text?.trim() || ...`. -/
def segmentFallbackEmpty : String :=
  "하나님의 은혜가 해당 영역 가운데 가득하시기를 소망합니다."

/-- doc 1 `generatePrayerSegment`: the `catch` fallback. -/
def segmentFallbackError : String :=
  "하나님께서 우리 마음의 기도를 들으시고 가장 선한 것으로 채워주시기를 간절히 원합니다."

/-- doc 1 `generateRepresentativePrayer`: the empty-text fallback of
`response.text || ...`. -/
def repFallbackText : String :=
  "최고의 기도문을 생성하는 데 실패했습니다."

/-- `chunk.web?` of a grounding chunk: `{ title?, uri? }` or absent. -/
structure WebInfo where
  title : Option String
  uri : Option String
deriving DecidableEq, Repr

/-- A grounding chunk as read by both generation functions. -/
structure GroundingChunk where
  web : Option WebInfo
deriving DecidableEq, Repr

/-- What the generation functions read off a resolved
`GenerateContentResponse`: `response.text` and
`response.candidates?.[0]?.groundingMetadata?.groundingChunks`. -/
structure GenResponse where
  text : Option String
  chunks : Option (List GroundingChunk)
deriving DecidableEq, Repr

/-- JS truthiness of a `string | undefined` value (`undefined` and `""` are
falsy). -/
def jsTruthy : Option String → Bool
  | some u => decide (u ≠ "")
  | none => false

/-- `x || fallback` on a `string | undefined` value. -/
def jsOr (o : Option String) (fallback : String) : String :=
  match o with
  | some t => if t = "" then fallback else t
  | none => fallback

/-- `chunk.web?.title` / `chunk.web?.uri`. -/
def webField (f : WebInfo → Option String) (chunk : GroundingChunk) : Option String :=
  match chunk.web with
  | some w => f w
  | none => none

/-- `groundingChunks?.map(chunk => ({title: chunk.web?.title, uri:
chunk.web?.uri})).filter(s => s.uri) || []` (identical in both generation
functions). -/
def sourcesOf (chunks : Option (List GroundingChunk)) : List GroundingSource :=
  match chunks with
  | some cs =>
      (cs.map fun chunk =>
        GroundingSource.mk (webField WebInfo.title chunk) (webField WebInfo.uri chunk)).filter
        (fun s => jsTruthy s.uri)
  | none => []

/-- doc 1 `generatePrayerSegment`, result handling: the body is wrapped in
`try/catch`; on resolution the text is `response.text?.trim() || fallback`,
on rejection the `catch` returns a static fallback string.  The outcome of
the awaited network call is the explicit input. -/
def generatePrayerSegmentResult (outcome : Except Unit GenResponse) : String :=
  match outcome with
  | .ok response =>
      match response.text with
      | some t => if t.trim = "" then segmentFallbackEmpty else t.trim
      | none => segmentFallbackEmpty
  | .error _ => segmentFallbackError

/-- doc 1 `generateRepresentativePrayer`, result handling: there is no
`try/catch` around the `await` — a rejection propagates to the caller —
and on resolution the text is `response.text || fallback` plus the filtered
sources. -/
def generateRepresentativePrayerResultV1 (outcome : Except Unit GenResponse) :
    Except Unit (String × List GroundingSource) :=
  match outcome with
  | .error e => .error e
  | .ok response => .ok (jsOr response.text repFallbackText, sourcesOf response.chunks)

/-!
## Submit-time validation (`handleGenerateRep` / `handleGenerateFun`, doc 3)
-/

/-- What the synchronous prefix of a generate handler does before (or
instead of) dispatching the network call: the alert raised, whether
`setIsLoading(true)` ran, and whether the generation call was dispatched. -/
structure SubmitOutcome where
  alert : Option String
  loadingTurnedOn : Bool
  dispatched : Bool
deriving DecidableEq, Repr

/-- `handleGenerateRep`, synchronous validation prefix: with
`serviceType !== '기타'` an empty `churchName` or `pastorName` alerts and
returns; with `serviceType === '기타'` an empty `otherServiceType` alerts
and returns; otherwise `setIsLoading(true)` runs and the call is
dispatched.  (`!str` on a string is true exactly for `""`.) -/
def handleGenerateRepSync (repSettings : RepresentativeSettings) : SubmitOutcome :=
  if repSettings.serviceType ≠ "기타" then
    if repSettings.churchName = "" then
      { alert := some "교회 이름을 입력해주세요.", loadingTurnedOn := false, dispatched := false }
    else if repSettings.pastorName = "" then
      { alert := some "설교자 성함을 입력해주세요.", loadingTurnedOn := false, dispatched := false }
    else
      { alert := none, loadingTurnedOn := true, dispatched := true }
  else
    if repSettings.otherServiceType = "" then
      { alert := some "예배 종류를 직접 입력해주세요.", loadingTurnedOn := false, dispatched := false }
    else
      { alert := none, loadingTurnedOn := true, dispatched := true }

/-- `handleGenerateFun`, synchronous validation prefix: an empty
`deceasedName` alerts and returns before `setIsLoading(true)`. -/
def handleGenerateFunSync (funSettings : FuneralSettings) : SubmitOutcome :=
  if funSettings.deceasedName = "" then
    { alert := some "고인의 이름을 입력해주세요.", loadingTurnedOn := false, dispatched := false }
  else
    { alert := none, loadingTurnedOn := true, dispatched := true }

/-!
## Speech request (`generateSpeech`, doc 1)
-/

/-- What `generateSpeech` sends: the prebuilt voice name and the wrapped
text. -/
structure SpeechRequest where
  voiceName : String
  requestText : String
deriving DecidableEq, Repr

/-- `generateSpeech(text, gender = 'female')`: `const voiceName = gender ===
'male' ? 'Puck' : 'Kore'`, and the TTS contents wrap the prayer text in a
fixed instruction.  The default argument mirrors the source's default
parameter value. -/
def generateSpeechRequest (text : String) (gender : Gender := Gender.female) :
    SpeechRequest :=
  { voiceName := if gender = Gender.male then "Puck" else "Kore",
    requestText := "차분하고 경건한 목소리로 다음 기도문을 낭독하세요: " ++ text }

/-!
## Closing formulas
-/

/-- The representative closing named by doc 1's template. -/
def repClosing : String :=
  "우리 주 예수 그리스도의 이름으로 간절히 기도드립니다. 아멘."

/-- The funeral closing named by doc 1's template. -/
def funClosing : String :=
  "부활이요 생명이신 예수 그리스도의 이름으로 기도드립니다. 아멘."

/-- The final instruction of doc 1's representative template, up to the end
of the string. -/
def repClosingTail : String :=
  "마지막은 \"" ++ repClosing ++ "\"으로 마무리하십시오.\n  "

/-- The final instruction of doc 1's funeral template, up to the end of the
string. -/
def funClosingTail : String :=
  "마지막은 \"" ++ funClosing ++ "\"으로 끝내주세요.\n  "

end Prayer

namespace Prayer

/-!
## Claims about the request tracker
-/

/-- Helper: a delivery whose token is not the slot's current token changes
nothing at all. -/
theorem deliver_noncurrent_noop (s : SlotState) (t : Nat) (p : String)
    (h : s.activeRequest ≠ some t) :
    deliverSuccess t p s = s ∧ deliverError t s = s := by
  constructor <;> simp [deliverSuccess, deliverError, h]

/-- C1 (amended): for every slot state, when two segment requests are begun
in succession and *the two begins mint distinct tokens*, then whichever
order the two responses are delivered in, only the second request's response
is applied (the first is dropped by the `!== requestId` check), and in
general a response is applied only when its token still equals the slot's
stored current token. -/
theorem second_begin_wins (s0 : SlotState) (t1 t2 : Nat) (p1 p2 : String)
    (hne : t1 ≠ t2) :
    ((deliverSuccess t2 p2 (deliverSuccess t1 p1
        (beginSearch t2 (beginSearch t1 s0)))).fieldValue = p2 ∧
     (deliverSuccess t1 p1 (deliverSuccess t2 p2
        (beginSearch t2 (beginSearch t1 s0)))).fieldValue = p2) ∧
    (∀ s : SlotState, ∀ p : String, s.activeRequest ≠ some t1 →
      deliverSuccess t1 p s = s) := by
  have h21 : t2 ≠ t1 := Ne.symm hne
  refine ⟨⟨?_, ?_⟩, ?_⟩
  · simp [beginSearch, deliverSuccess, h21]
  · simp [beginSearch, deliverSuccess, h21]
  · intro s p h
    simp [deliverSuccess, h]

/-- C1 witness: the amended statement at a concrete input. -/
theorem second_begin_wins_witness :
    (1 : Nat) ≠ 2 ∧
    (deliverSuccess 2 "둘째" (deliverSuccess 1 "첫째"
      (beginSearch 2 (beginSearch 1 ⟨none, false, "", 0⟩)))).fieldValue = "둘째" :=
  ⟨by decide, ((second_begin_wins ⟨none, false, "", 0⟩ 1 2 "첫째" "둘째" (by decide)).1).1⟩

/-- C1 counterexample: the tokens are `Date.now()` values, so two begins
within the same millisecond mint *equal* tokens.  Then the `!== requestId`
check cannot tell the two requests apart: delivering the second request's
response first and the first (stale) one afterwards leaves the *first*
request's response in the field, so it is not the case that only the most
recently begun request's response is applied. -/
theorem equal_tokens_apply_stale_response :
    (deliverSuccess 1000 "첫째" (deliverSuccess 1000 "둘째"
      (beginSearch 1000 (beginSearch 1000 ⟨none, false, "", 0⟩)))).fieldValue
      = "첫째" := by
  decide

/-- C2: after `handleCancelSearchSegment` stores the sentinel `0`, the later
delivery (resolution or rejection) of the in-flight request with its
positive `Date.now()` token changes nothing: the field keeps its value, no
alert fires, and the busy indicator stays off; in general a delivery whose
token is no longer current (cancelled or superseded) never changes the
state, in particular it never turns the busy indicator back on. -/
theorem cancel_then_delivery_noop (s0 : SlotState) (t : Nat) (p : String)
    (ht : 0 < t) :
    (deliverSuccess t p (cancelSearch (beginSearch t s0))
        = cancelSearch (beginSearch t s0) ∧
     deliverError t (cancelSearch (beginSearch t s0))
        = cancelSearch (beginSearch t s0) ∧
     (cancelSearch (beginSearch t s0)).searching = false ∧
     (cancelSearch (beginSearch t s0)).fieldValue = s0.fieldValue ∧
     (cancelSearch (beginSearch t s0)).alerts = s0.alerts) ∧
    (∀ s : SlotState, s.activeRequest ≠ some t →
      deliverSuccess t p s = s ∧ deliverError t s = s) := by
  have hne : (0 : Nat) ≠ t := ht.ne
  refine ⟨⟨?_, ?_, ?_, ?_, ?_⟩, ?_⟩
  · simp [cancelSearch, beginSearch, deliverSuccess, hne]
  · simp [cancelSearch, beginSearch, deliverError, hne]
  · simp [cancelSearch]
  · simp [cancelSearch, beginSearch]
  · simp [cancelSearch, beginSearch]
  · intro s h
    exact deliver_noncurrent_noop s t p h

/-- C2 witness: the statement at a concrete input. -/
theorem cancel_then_delivery_noop_witness :
    (0 : Nat) < 5 ∧
    deliverSuccess 5 "응답" (cancelSearch (beginSearch 5 ⟨none, false, "본문", 0⟩))
      = cancelSearch (beginSearch 5 ⟨none, false, "본문", 0⟩) :=
  ⟨by decide,
    ((cancel_then_delivery_noop ⟨none, false, "본문", 0⟩ 5 "응답" (by decide)).1).1⟩

/-!
## Claim about the WAV encoder
-/

/-- C3: for every PCM payload and sample rate (within the 32-bit ranges the
`DataView` stores), `createWavBlob` produces `N + 44` bytes whose header
holds the four ASCII tags, the two little-endian lengths `36 + N` and `N`,
and the fixed format fields, with byte rate `sampleRate * 2`. -/
theorem createWavBlob_spec (pcm : List Nat) (sr : Nat)
    (hN : 36 + pcm.length < 4294967296) (hsr : sr * 2 < 4294967296) :
    (createWavBlob pcm sr).length = pcm.length + 44 ∧
    sliceAt (createWavBlob pcm sr) 0 4 = [82, 73, 70, 70] ∧
    sliceAt (createWavBlob pcm sr) 8 4 = [87, 65, 86, 69] ∧
    sliceAt (createWavBlob pcm sr) 12 4 = [102, 109, 116, 32] ∧
    sliceAt (createWavBlob pcm sr) 36 4 = [100, 97, 116, 97] ∧
    readLE32 (createWavBlob pcm sr) 4 = 36 + pcm.length ∧
    readLE32 (createWavBlob pcm sr) 40 = pcm.length ∧
    readLE16 (createWavBlob pcm sr) 20 = 1 ∧
    readLE16 (createWavBlob pcm sr) 22 = 1 ∧
    readLE32 (createWavBlob pcm sr) 24 = sr ∧
    readLE32 (createWavBlob pcm sr) 28 = sr * 2 ∧
    readLE16 (createWavBlob pcm sr) 32 = 2 ∧
    readLE16 (createWavBlob pcm sr) 34 = 16 := by
  refine ⟨?_, rfl, rfl, rfl, rfl, ?_, ?_, rfl, rfl, ?_, ?_, rfl, rfl⟩
  · simp [createWavBlob]
    omega
  · have e : readLE32 (createWavBlob pcm sr) 4 =
        (36 + pcm.length) % 4294967296 % 256 +
          256 * ((36 + pcm.length) % 4294967296 / 256 % 256) +
          65536 * ((36 + pcm.length) % 4294967296 / 65536 % 256) +
          16777216 * ((36 + pcm.length) % 4294967296 / 16777216 % 256) := rfl
    rw [e]
    omega
  · have e : readLE32 (createWavBlob pcm sr) 40 =
        pcm.length % 4294967296 % 256 +
          256 * (pcm.length % 4294967296 / 256 % 256) +
          65536 * (pcm.length % 4294967296 / 65536 % 256) +
          16777216 * (pcm.length % 4294967296 / 16777216 % 256) := rfl
    rw [e]
    omega
  · have e : readLE32 (createWavBlob pcm sr) 24 =
        sr % 4294967296 % 256 +
          256 * (sr % 4294967296 / 256 % 256) +
          65536 * (sr % 4294967296 / 65536 % 256) +
          16777216 * (sr % 4294967296 / 16777216 % 256) := rfl
    rw [e]
    omega
  · have e : readLE32 (createWavBlob pcm sr) 28 =
        sr * 2 % 4294967296 % 256 +
          256 * (sr * 2 % 4294967296 / 256 % 256) +
          65536 * (sr * 2 % 4294967296 / 65536 % 256) +
          16777216 * (sr * 2 % 4294967296 / 16777216 % 256) := rfl
    rw [e]
    omega

/-- C3 witness: the statement at a concrete payload and the spec's example
sample rate 24000 (byte-rate field 48000). -/
theorem createWavBlob_spec_witness :
    36 + ([7, 8, 9] : List Nat).length < 4294967296 ∧
    (createWavBlob [7, 8, 9] 24000).length = 3 + 44 ∧
    readLE32 (createWavBlob [7, 8, 9] 24000) 4 = 39 ∧
    readLE32 (createWavBlob [7, 8, 9] 24000) 28 = 48000 :=
  ⟨by decide,
    (createWavBlob_spec [7, 8, 9] 24000 (by decide) (by decide)).1,
    (createWavBlob_spec [7, 8, 9] 24000 (by decide) (by decide)).2.2.2.2.2.1,
    (createWavBlob_spec [7, 8, 9] 24000 (by decide) (by decide)).2.2.2.2.2.2.2.2.2.2.1⟩

end Prayer

namespace Prayer

/-- doc 3 `DEFAULT_REP_SETTINGS`. -/
def defaultRepSettings : RepresentativeSettings :=
  { churchName := ""
    pastorName := ""
    pastorTitle := "목사"
    serviceType := "주일 대예배"
    otherServiceType := ""
    churchSeason := "해당 없음"
    otherChurchSeason := ""
    prayerTone := "현대적"
    prayerDuration := "3분"
    graceAndSalvation := "하나님의 크신 은혜와 독생자 예수 그리스도의 보혈로 우리를 구원하심을 찬양합니다."
    includeGraceAndSalvation := true
    confessionAndForgiveness := "지난 한 주간 주님 말씀대로 살지 못한 부족함을 고백합니다. 보혈로 씻어주소서."
    includeConfessionAndForgiveness := true
    nationWellbeing := "대한민국이 주님을 경외하는 나라 되게 하시고, 평화로운 통일의 길을 열어주소서."
    includeNationWellbeing := true
    churchNeeds := "저희 교회가 사랑으로 하나 되고, 잃어버린 영혼을 구원하는 방주가 되게 하소서."
    includeChurchNeeds := true
    specialGraceAndHealing := "병상에 있는 성도들과 가난하고 고통받는 이웃들에게 치유의 손길을 더하소서."
    includeSpecialGraceAndHealing := true
    preacherFilling := "말씀을 전하시는 분께 성령의 두루마기를 입혀주셔서 생명의 말씀이 선포되게 하소서."
    includePreacherFilling := true
    additionalRequests := ""
    voiceGender := Gender.female
    attachments := some [] }

/-- doc 3 `DEFAULT_FUN_SETTINGS`. -/
def defaultFunSettings : FuneralSettings :=
  { deceasedName := ""
    deceasedTitle := "성도"
    funeralType := "발인"
    familyComfort := "사랑하는 가족을 먼저 보낸 유족들의 슬픔을 위로하여 주시고 성령의 평강을 허락하소서."
    hopeOfResurrection := "우리가 다시 만날 부활의 산 소망을 주심에 감사합니다."
    additionalRequests := ""
    voiceGender := Gender.female
    attachments := some [] }

/-!
## Claims about determinism, error handling, validation and voice choice
-/

/-- C4: prompt assembly is a pure function of the settings record — two runs
on equal records produce identical prompt strings and identical part lists
(the embedding is a total function of the record and of nothing else). -/
theorem prompt_assembly_deterministic (s1 s2 : RepresentativeSettings)
    (h : s1 = s2) :
    buildRepPromptV1 s1 = buildRepPromptV1 s2 ∧
    buildRepPartsV1 s1 = buildRepPartsV1 s2 := by
  subst h
  exact ⟨rfl, rfl⟩

/-- C4 witness: the statement at a concrete settings record. -/
theorem prompt_assembly_deterministic_witness :
    defaultRepSettings = defaultRepSettings ∧
    buildRepPromptV1 defaultRepSettings = buildRepPromptV1 defaultRepSettings :=
  ⟨rfl, (prompt_assembly_deterministic defaultRepSettings defaultRepSettings rfl).1⟩

/-- C7 (amended): a rejected generation call is caught inside
`generatePrayerSegment` and mapped to a static fallback string; in
`generateRepresentativePrayer` there is no `try/catch`, so a rejection
propagates unchanged to the caller, and only a missing or empty response
text is mapped to the static fallback string. -/
theorem generation_error_fallbacks :
    (∀ e : Unit, generatePrayerSegmentResult (Except.error e) = segmentFallbackError) ∧
    (∀ e : Unit, generateRepresentativePrayerResultV1 (Except.error e) = Except.error e) ∧
    (∀ chunks : Option (List GroundingChunk),
      generateRepresentativePrayerResultV1 (Except.ok ⟨none, chunks⟩)
        = Except.ok (repFallbackText, sourcesOf chunks)) ∧
    (∀ chunks : Option (List GroundingChunk),
      generateRepresentativePrayerResultV1 (Except.ok ⟨some "", chunks⟩)
        = Except.ok (repFallbackText, sourcesOf chunks)) :=
  ⟨fun _ => rfl, fun _ => rfl, fun _ => rfl, fun _ => rfl⟩

/-- C7 counterexample: `generateRepresentativePrayer` does *not* catch the
failure at its own call site — a rejected call is returned to the caller as
a rejection, not mapped to a fallback result text. -/
theorem rep_generation_error_propagates :
    generateRepresentativePrayerResultV1 (Except.error ())
      = Except.error () := rfl

/-- C8: when a required field is missing at submit time, the generate
handler alerts and returns without dispatching the generation call, and the
loading flag is never turned on. -/
theorem validation_blocks_dispatch (repSettings : RepresentativeSettings)
    (funSettings : FuneralSettings) :
    (repSettings.serviceType ≠ "기타" →
      (repSettings.churchName = "" ∨ repSettings.pastorName = "") →
      (handleGenerateRepSync repSettings).dispatched = false ∧
      (handleGenerateRepSync repSettings).loadingTurnedOn = false ∧
      (handleGenerateRepSync repSettings).alert.isSome = true) ∧
    (repSettings.serviceType = "기타" →
      repSettings.otherServiceType = "" →
      (handleGenerateRepSync repSettings).dispatched = false ∧
      (handleGenerateRepSync repSettings).loadingTurnedOn = false ∧
      (handleGenerateRepSync repSettings).alert.isSome = true) ∧
    (funSettings.deceasedName = "" →
      (handleGenerateFunSync funSettings).dispatched = false ∧
      (handleGenerateFunSync funSettings).loadingTurnedOn = false ∧
      (handleGenerateFunSync funSettings).alert.isSome = true) := by
  refine ⟨?_, ?_, ?_⟩
  · intro hst hempty
    rcases hempty with h | h
    · simp [handleGenerateRepSync, hst, h]
    · by_cases hc : repSettings.churchName = "" <;>
        simp [handleGenerateRepSync, hst, hc, h]
  · intro hst hother
    simp [handleGenerateRepSync, hst, hother]
  · intro hd
    simp [handleGenerateFunSync, hd]

/-- C8 witness: the statement at concrete settings records missing a
required field. -/
theorem validation_blocks_dispatch_witness :
    (defaultRepSettings.serviceType ≠ "기타" ∧ defaultRepSettings.churchName = "" ∧
      defaultFunSettings.deceasedName = "") ∧
    (handleGenerateRepSync defaultRepSettings).dispatched = false ∧
    (handleGenerateFunSync defaultFunSettings).dispatched = false :=
  ⟨⟨by decide, by decide, by decide⟩,
    ((validation_blocks_dispatch defaultRepSettings defaultFunSettings).1
      (by decide) (Or.inl (by decide))).1,
    (((validation_blocks_dispatch defaultRepSettings defaultFunSettings).2.2)
      (by decide)).1⟩

/-- C10: `generateSpeech` requests the prebuilt voice `Puck` exactly for the
`male` gender argument and `Kore` in every other case, and an omitted gender
argument defaults to `female`, hence voice `Kore`. -/
theorem generateSpeech_voice_selection (text : String) :
    (generateSpeechRequest text Gender.male).voiceName = "Puck" ∧
    (generateSpeechRequest text Gender.female).voiceName = "Kore" ∧
    (generateSpeechRequest text).voiceName = "Kore" ∧
    (∀ g : Gender, g ≠ Gender.male → (generateSpeechRequest text g).voiceName = "Kore") := by
  refine ⟨rfl, rfl, rfl, ?_⟩
  intro g hg
  cases g with
  | male => exact absurd rfl hg
  | female => rfl

end Prayer

namespace Prayer

/-- doc 1 representative template with the `instructionParts` block abstracted,
for stating how the block alone changes under a section toggle. -/
def repPromptWithBlock (settings : RepresentativeSettings) (block : String) : String :=
  "\n    당신은 수십 년간 수많은 성도들에게 영적 감동을 전해온 세계 최고의 기도문 작성 전문가입니다. \n    Google Search와 제공된 멀티모달 정보를 활용하여 '최고의 대표기도문'을 작성해주세요.\n\n    [핵심 임무]\n    1. Google Search를 통해 현재 한국 교계의 '" ++
    (finalChurchSeasonOf settings) ++
    "' 절기 및 '" ++
    (finalServiceTypeOf settings) ++
    "'에 가장 적절한 성경적 표현과 기도 흐름을 분석하십시오.\n    2. [멀티모달 정밀 분석]: 제공된 첨부 파일(이미지, PDF, 문서 등)의 내용을 세밀하게 분석하십시오. 텍스트 정보나 현장의 분위기, 강조된 기도 제목 등을 모두 종합하여 기도문에 영적으로 승화시켜 반영하십시오.\n    3. 각 섹션에 가장 잘 어울리는 성경 구절을 찾아 기도문에 자연스럽게 녹여내십시오.\n\n    [입력 정보]\n    - 교회 이름: " ++
    settings.churchName ++
    "\n    - 설교자: " ++
    settings.pastorName ++
    " " ++
    settings.pastorTitle ++
    "\n    - 예배 종류: " ++
    (finalServiceTypeOf settings) ++
    "\n    - 교회 절기: " ++
    (finalChurchSeasonOf settings) ++
    "\n    - 기도문 톤: " ++
    settings.prayerTone ++
    " (" ++
    (toneInstructionV1 settings.prayerTone) ++
    ")\n    - 예상 기도 시간: " ++
    settings.prayerDuration ++
    "\n\n    [기도문 구성 지침]\n    " ++
    block ++
    "\n    - 추가 요청 사항: " ++
    settings.additionalRequests ++
    "\n\n    마지막은 \"우리 주 예수 그리스도의 이름으로 간절히 기도드립니다. 아멘.\"으로 마무리하십시오.\n  "

/-- Right-nested concatenation of the selected instruction lines. -/
def joinLines : List String → String
  | [] => ""
  | l :: ls => l ++ joinLines ls

theorem buildRepPromptV1_eq_withBlock (settings : RepresentativeSettings) :
    buildRepPromptV1 settings = repPromptWithBlock settings (instructionParts settings) := rfl

theorem repPromptWithBlock_setFlag (settings : RepresentativeSettings)
    (k : RepSection) (b : Bool) (block : String) :
    repPromptWithBlock (setIncludeFlag settings k b) block
      = repPromptWithBlock settings block := by
  cases k <;> rfl

theorem secLine_setFlag (settings : RepresentativeSettings) (k : RepSection)
    (b : Bool) (j : RepSection) :
    secLine (setIncludeFlag settings k b) j = secLine settings j := by
  cases k <;> cases j <;> rfl

theorem secFlag_setFlag_false (settings : RepresentativeSettings)
    (k j : RepSection) :
    secFlag (setIncludeFlag settings k false) j
      = (secFlag settings j && decide (j ≠ k)) := by
  cases k <;> cases j <;> simp [secFlag, setIncludeFlag]

theorem instructionParts_eq_join (s : RepresentativeSettings) :
    instructionParts s
      = joinLines ((sectionOrder.filter (fun j => secFlag s j)).map
          (fun j => secLine s j)) := by
  cases h1 : s.includeGraceAndSalvation <;>
  cases h2 : s.includeConfessionAndForgiveness <;>
  cases h3 : s.includeNationWellbeing <;>
  cases h4 : s.includeChurchNeeds <;>
  cases h5 : s.includeSpecialGraceAndHealing <;>
  cases h6 : s.includePreacherFilling <;>
    simp [instructionParts, sectionOrder, secFlag, secLine, joinLines,
      h1, h2, h3, h4, h5, h6, String.append_assoc, String.append_empty,
      String.empty_append]

end Prayer

namespace Prayer

/-- C6: toggling one section's include flag off yields exactly the same
assembled prompt with that section's instruction line removed from the
`기도문 구성 지침` block: the block becomes the original included sections
minus the toggled one, in the source's fixed order, each line unchanged. -/
theorem section_toggle_removes_line (settings : RepresentativeSettings)
    (k : RepSection) :
    buildRepPromptV1 (setIncludeFlag settings k false)
      = repPromptWithBlock settings
          (joinLines (((sectionOrder.filter (fun j => secFlag settings j)).filter
              (fun j => decide (j ≠ k))).map (fun j => secLine settings j))) ∧
    buildRepPromptV1 settings
      = repPromptWithBlock settings
          (joinLines ((sectionOrder.filter (fun j => secFlag settings j)).map
              (fun j => secLine settings j))) ∧
    (∀ j : RepSection, secLine (setIncludeFlag settings k false) j
        = secLine settings j) := by
  have hf : sectionOrder.filter (fun j => secFlag (setIncludeFlag settings k false) j)
      = (sectionOrder.filter (fun j => secFlag settings j)).filter
          (fun j => decide (j ≠ k)) := by
    rw [List.filter_filter]
    exact List.filter_congr (fun j _ => by
      rw [secFlag_setFlag_false, Bool.and_comm])
  refine ⟨?_, ?_, fun j => secLine_setFlag settings k false j⟩
  · rw [buildRepPromptV1_eq_withBlock, repPromptWithBlock_setFlag,
      instructionParts_eq_join, hf]
    congr 2
    exact List.map_congr_left (fun j _ => secLine_setFlag settings k false j)
  · rw [buildRepPromptV1_eq_withBlock, instructionParts_eq_join]

end Prayer

namespace Prayer

/-- Helper: a suffix of the right part is a suffix of an append. -/
theorem suffix_of_append_of_suffix {α : Type} {s x : List α} (a : List α)
    (h : s <:+ x) : s <:+ a ++ x :=
  h.trans (List.suffix_append a x)

set_option maxRecDepth 100000 in
/-- C9 (amended): for every settings record, the first variant's prompts end
with the fixed closing instruction — the representative template ends with
the instruction naming `우리 주 예수 그리스도의 이름으로 간절히
기도드립니다. 아멘.` and the funeral template with the instruction naming
`부활이요 생명이신 예수 그리스도의 이름으로 기도드립니다. 아멘.` — while
the second variant's representative template contains no closing-formula
instruction (see the counterexample). -/
theorem closing_formula_v1 (rs : RepresentativeSettings) (fs : FuneralSettings) :
    repClosingTail.data <:+ (buildRepPromptV1 rs).data ∧
    funClosingTail.data <:+ (buildFunPromptV1 fs).data := by
  constructor
  · simp only [buildRepPromptV1, String.data_append, List.append_assoc]
    repeat
      first
        | exact ⟨("\n\n    " : String).data, rfl⟩
        | apply suffix_of_append_of_suffix
  · simp only [buildFunPromptV1, String.data_append, List.append_assoc]
    repeat
      first
        | exact ⟨("\n\n    " : String).data, rfl⟩
        | apply suffix_of_append_of_suffix

set_option maxRecDepth 100000 in
/-- C9 counterexample: the second variant's representative prompt (here at
the default settings record) never mentions the representative closing
formula, so its final instruction does not name it. -/
theorem repPromptV2_lacks_closing :
    jsIncludes (buildRepPromptV2 defaultRepSettings) repClosing = false := by
  decide

end Prayer

namespace Prayer

/-- The user- or selection-supplied strings interpolated into the doc 1
representative template (with the two `final*` conditionals already
resolved). -/
def repFreeTexts (s : RepresentativeSettings) : List String :=
  [s.churchName, s.pastorName, s.pastorTitle, s.prayerTone, s.prayerDuration,
   finalServiceTypeOf s, finalChurchSeasonOf s, s.additionalRequests,
   s.graceAndSalvation, s.confessionAndForgiveness, s.nationWellbeing,
   s.churchNeeds, s.specialGraceAndHealing, s.preacherFilling]

set_option maxRecDepth 100000 in
/-- Both tone instruction strings are free of `타`. -/
theorem hasTa_toneInstructionV1 (p : String) :
    hasTa (toneInstructionV1 p) = false := by
  unfold toneInstructionV1
  split_ifs <;> decide

set_option maxRecDepth 100000 in
/-- If the six section texts are free of `타`, so is the instruction block. -/
theorem hasTa_instructionParts (s : RepresentativeSettings)
    (h1 : hasTa s.graceAndSalvation = false)
    (h2 : hasTa s.confessionAndForgiveness = false)
    (h3 : hasTa s.nationWellbeing = false)
    (h4 : hasTa s.churchNeeds = false)
    (h5 : hasTa s.specialGraceAndHealing = false)
    (h6 : hasTa s.preacherFilling = false) :
    hasTa (instructionParts s) = false := by
  unfold instructionParts
  split_ifs <;>
    simp [hasTa_append, h1, h2, h3, h4, h5, h6] <;> decide

set_option maxRecDepth 100000 in
/-- If every interpolated string is free of `타`, the whole doc 1
representative prompt is (its static text never contains `타`). -/
theorem hasTa_buildRepPromptV1 (s : RepresentativeSettings)
    (hta : ∀ x ∈ repFreeTexts s, hasTa x = false) :
    hasTa (buildRepPromptV1 s) = false := by
  have hc := hta s.churchName (by simp [repFreeTexts])
  have hp := hta s.pastorName (by simp [repFreeTexts])
  have hpt := hta s.pastorTitle (by simp [repFreeTexts])
  have htone := hta s.prayerTone (by simp [repFreeTexts])
  have hd := hta s.prayerDuration (by simp [repFreeTexts])
  have hsvc := hta (finalServiceTypeOf s) (by simp [repFreeTexts])
  have hsea := hta (finalChurchSeasonOf s) (by simp [repFreeTexts])
  have ha := hta s.additionalRequests (by simp [repFreeTexts])
  have hg := hta s.graceAndSalvation (by simp [repFreeTexts])
  have hcf := hta s.confessionAndForgiveness (by simp [repFreeTexts])
  have hn := hta s.nationWellbeing (by simp [repFreeTexts])
  have hch := hta s.churchNeeds (by simp [repFreeTexts])
  have hh := hta s.specialGraceAndHealing (by simp [repFreeTexts])
  have hpr := hta s.preacherFilling (by simp [repFreeTexts])
  have hinstr := hasTa_instructionParts s hg hcf hn hch hh hpr
  simp only [buildRepPromptV1, hasTa_append, hc, hp, hpt, htone, hd, hsvc,
    hsea, ha, hinstr, hasTa_toneInstructionV1, Bool.or_false, Bool.false_or]
  decide

end Prayer

namespace Prayer

set_option maxRecDepth 100000 in
/-- If the name, church and season strings are free of `타`, the whole
segment prompt (praise branch) is. -/
theorem hasTa_buildSegmentPrompt (segmentName : String)
    (context : SegmentContext) (o : String)
    (hseason : context.churchSeason = "기타") (hos : context.otherSeason = some o)
    (hname : jsIncludes segmentName "찬양" = true)
    (h1 : hasTa segmentName = false) (h2 : hasTa context.churchName = false)
    (h3 : hasTa o = false) :
    hasTa (buildSegmentPrompt segmentName context) = false := by
  have hsea : segSeason context = o := by
    simp [segSeason, hseason, hos, strOfOptUndef]
  simp only [buildSegmentPrompt, segmentPromptFor, hname, if_true,
    segPromptOuter, segPromptPraise, hsea, hasTa_append, h1, h2, h3,
    Bool.or_false, Bool.false_or]
  decide

set_option maxRecDepth 100000 in
/-- C5 (amended): whenever a selectable field equals the sentinel `기타`,
the prompt builders interpolate the paired free-text value in its place, so
the assembled prompt contains that value; and the prompt contains no
occurrence of the sentinel provided every interpolated field value is free
of the character `타` (in particular, free of the sentinel) — without that
proviso a sentinel inside another free-text field survives into the prompt
(see the counterexample).  For `generatePrayerSegment` the season is
interpolated only by the `찬양` branch, so the containment statement applies
to segment names containing `찬양`. -/
theorem other_sentinel_substitution (s : RepresentativeSettings)
    (segmentName : String) (context : SegmentContext) (o : String) :
    (s.serviceType = "기타" →
      jsIncludes (buildRepPromptV1 s) s.otherServiceType = true ∧
      ((∀ x ∈ repFreeTexts s, hasTa x = false) →
        jsIncludes (buildRepPromptV1 s) "기타" = false)) ∧
    (s.churchSeason = "기타" →
      jsIncludes (buildRepPromptV1 s) s.otherChurchSeason = true ∧
      ((∀ x ∈ repFreeTexts s, hasTa x = false) →
        jsIncludes (buildRepPromptV1 s) "기타" = false)) ∧
    (context.churchSeason = "기타" → context.otherSeason = some o →
      jsIncludes segmentName "찬양" = true →
      jsIncludes (buildSegmentPrompt segmentName context) o = true ∧
      (hasTa segmentName = false → hasTa context.churchName = false →
        hasTa o = false →
        jsIncludes (buildSegmentPrompt segmentName context) "기타" = false)) := by
  refine ⟨?_, ?_, ?_⟩
  · intro hsvc
    have hfs : finalServiceTypeOf s = s.otherServiceType := by
      simp [finalServiceTypeOf, hsvc]
    constructor
    · simp only [buildRepPromptV1, hfs, String.append_assoc]
      repeat
        first
          | exact jsIncludes_append_left _ _ _ (jsIncludes_refl _)
          | apply jsIncludes_append_right
    · intro hta
      exact not_includes_sentinel_of_no_ta _ (hasTa_buildRepPromptV1 s hta)
  · intro hcs
    have hfc : finalChurchSeasonOf s = s.otherChurchSeason := by
      simp [finalChurchSeasonOf, hcs]
    constructor
    · simp only [buildRepPromptV1, hfc, String.append_assoc]
      repeat
        first
          | exact jsIncludes_append_left _ _ _ (jsIncludes_refl _)
          | apply jsIncludes_append_right
    · intro hta
      exact not_includes_sentinel_of_no_ta _ (hasTa_buildRepPromptV1 s hta)
  · intro hseason hos hname
    have hsea : segSeason context = o := by
      simp [segSeason, hseason, hos, strOfOptUndef]
    constructor
    · simp only [buildSegmentPrompt, segmentPromptFor, hname, if_true,
        segPromptOuter, segPromptPraise, hsea, String.append_assoc]
      repeat
        first
          | exact jsIncludes_append_left _ _ _ (jsIncludes_refl _)
          | apply jsIncludes_append_right
    · intro h1 h2 h3
      exact not_includes_sentinel_of_no_ta _
        (hasTa_buildSegmentPrompt segmentName context o hseason hos hname h1 h2 h3)

/-- A settings record whose `churchName` itself contains the sentinel. -/
def sentinelLeakSettings : RepresentativeSettings :=
  { defaultRepSettings with
      serviceType := "기타"
      otherServiceType := "임직 감사 예배"
      churchName := "기타문화교회" }

set_option maxRecDepth 100000 in
/-- C5 counterexample: with `serviceType = '기타'` the paired free text is
substituted, yet the assembled prompt still contains the literal `기타`,
because another free-text field (`churchName`) carries it into the prompt —
the claim's "does not contain the sentinel literal" fails as stated. -/
theorem sentinel_survives_in_prompt :
    sentinelLeakSettings.serviceType = "기타" ∧
    jsIncludes (buildRepPromptV1 sentinelLeakSettings) "기타" = true := by
  exact ⟨rfl, by decide⟩

/-- A well-behaved record for the witness: `serviceType = '기타'` and no
free-text field contains `타`. -/
def substitutionWitnessSettings : RepresentativeSettings :=
  { defaultRepSettings with
      serviceType := "기타"
      otherServiceType := "산상 기도회"
      churchName := "은혜교회"
      pastorName := "김은혜" }

set_option maxRecDepth 100000 in
/-- C5 witness: the amended statement at concrete inputs. -/
theorem other_sentinel_substitution_witness :
    substitutionWitnessSettings.serviceType = "기타" ∧
    jsIncludes (buildRepPromptV1 substitutionWitnessSettings) "산상 기도회" = true ∧
    jsIncludes (buildRepPromptV1 substitutionWitnessSettings) "기타" = false ∧
    jsIncludes (buildSegmentPrompt "찬양과 감사 (성부/성자/성령)"
      ⟨"은혜교회", "기타", some "성탄절"⟩) "성탄절" = true :=
  ⟨rfl,
    ((other_sentinel_substitution substitutionWitnessSettings
      "찬양과 감사 (성부/성자/성령)" ⟨"은혜교회", "기타", some "성탄절"⟩
      "성탄절").1 rfl).1,
    ((other_sentinel_substitution substitutionWitnessSettings
      "찬양과 감사 (성부/성자/성령)" ⟨"은혜교회", "기타", some "성탄절"⟩
      "성탄절").1 rfl).2 (by decide),
    (((other_sentinel_substitution substitutionWitnessSettings
      "찬양과 감사 (성부/성자/성령)" ⟨"은혜교회", "기타", some "성탄절"⟩
      "성탄절").2.2) rfl rfl (by decide)).1⟩

end Prayer

namespace Prayer

/-- C10 witness: the non-male case at a concrete input. -/
theorem generateSpeech_voice_selection_witness :
    Gender.female ≠ Gender.male ∧
    (generateSpeechRequest "기도문" Gender.female).voiceName = "Kore" :=
  ⟨by decide,
    (generateSpeech_voice_selection "기도문").2.2.2 Gender.female (by decide)⟩

end Prayer
